import Mathlib

/-!
# Bangazon cart/order lifecycle — shallow embedding

A shallow embedding of the cart/order subsystem of the Bangazon API
(Django REST framework request handlers in `bangazonapi/views/`), together
with proofs about its behaviour.

Persistent state is a record of tables (lists of rows).  Django's
`Model.objects.get(...)` is modelled by `djangoGet`, which distinguishes
the three outcomes of the real call: a unique match, `DoesNotExist`, and
`MultipleObjectsReturned`.  Each request handler becomes a function from
state (plus request data) to a response value and a new state; an
exception that the handler does not catch is modelled by a dedicated
`uncaught` response constructor (Django turns such an exception into an
internal server error).
-/

namespace Bangazon

/-- Modelled from the spec: the Order model is not in the sources, only its
users are.  Spec §3: "Order … Attributes: identifier, owning customer,
creation timestamp, optional payment reference."  The views name the
payment reference `payment_type` (`Order.objects.get(customer=…,
payment_type=None)`, `order.payment_type = …`,
`filter(payment_type__isnull=True)`), so that name is used here. -/
structure Order where
  id : Nat
  customer : Nat
  created_date : Nat
  payment_type : Option Nat
  deriving Repr, DecidableEq

/-- Modelled from the spec: the OrderProduct (line item) model is not in the
sources.  Spec §3: "LineItem: join entity between an Order and a Product …
Attributes: identifier, owning order, referenced product.  No quantity
field." -/
structure OrderProduct where
  id : Nat
  order : Nat
  product : Nat
  deriving Repr, DecidableEq

/-- Modelled from the spec: the Payment model is not in the sources.
Spec §3: "Payment: a stored payment method owned by a Customer; account
number is persisted in full …".  The account number is a Python string,
embedded as its list of characters. -/
structure Payment where
  id : Nat
  customer : Nat
  merchant_name : List Char
  account_number : List Char
  deriving Repr, DecidableEq

/-- Modelled from the spec: the Product model is not in the sources.
Spec §3: "Product: catalog entry owned by a seller Customer."  Only the
fields the cart operations consult are carried. -/
structure Product where
  id : Nat
  customer : Nat
  name : List Char
  deriving Repr, DecidableEq

/-- The Store model, from `bangazonapi/models/store.py`: fields `customer`
(foreign key to Customer), `name`, `description`. -/
structure Store where
  id : Nat
  customer : Nat
  name : List Char
  description : List Char
  deriving Repr, DecidableEq

/-- Modelled from the spec: the Favorite model is not in the sources.
Spec §3: "Favorite: join entity, a Customer favoriting a seller (Customer
acting as seller)." -/
structure Favorite where
  id : Nat
  customer : Nat
  seller : Nat
  deriving Repr, DecidableEq

/-- The persistent store: one list per table, plus the next primary key the
database would hand out for the rows the cart operations create. -/
structure DB where
  orders : List Order
  orderProducts : List OrderProduct
  payments : List Payment
  products : List Product
  stores : List Store
  favorites : List Favorite
  nextOrderId : Nat
  nextLineItemId : Nat
  nextFavoriteId : Nat
  deriving Repr, DecidableEq

/-- Outcome of Django's `Model.objects.get(…)`: exactly one row matches,
none does (`DoesNotExist`), or several do (`MultipleObjectsReturned`). -/
inductive GetResult (α : Type) where
  | found : α → GetResult α
  | doesNotExist : GetResult α
  | multipleReturned : GetResult α
  deriving Repr, DecidableEq

/-- `Model.objects.get` over a table: filter by the lookup predicate and
case on how many rows matched. -/
def djangoGet {α : Type} (table : List α) (p : α → Bool) : GetResult α :=
  match table.filter p with
  | [] => .doesNotExist
  | [x] => .found x
  | _ => .multipleReturned

/-- Response of `Profile.cart` POST (`views/profile.py`, lines 228–296):
200 with the serialized line item, 400 on a missing product id, 404 on an
unknown product, or an exception the handler does not catch (Django then
answers with an internal server error). -/
inductive CartPostResult where
  | ok : OrderProduct → CartPostResult
  | badRequest : CartPostResult
  | productNotFound : CartPostResult
  | uncaught : String → CartPostResult
  deriving Repr, DecidableEq

/-- Second half of `Profile.cart` POST (`views/profile.py`, lines 276–296):
read `product_id` from the body (400 if absent, via the raised `KeyError`),
look the product up (404 on `Product.DoesNotExist`), then create and save
the line item `OrderProduct(product=product, order=open_order)`. -/
def cartPostAddItem (db : DB) (open_order : Order) (product_id : Option Nat) :
    CartPostResult × DB :=
  match product_id with
  | none => (.badRequest, db)
  | some pid =>
    match djangoGet db.products (fun p => p.id == pid) with
    | .doesNotExist => (.productNotFound, db)
    | .multipleReturned => (.uncaught "MultipleObjectsReturned", db)
    | .found product =>
      let line_item : OrderProduct :=
        { id := db.nextLineItemId, order := open_order.id, product := product.id }
      (.ok line_item,
        { db with
          orderProducts := db.orderProducts ++ [line_item]
          nextLineItemId := db.nextLineItemId + 1 })

/-- `Profile.cart` POST (`views/profile.py`, lines 269–296).  The order
lookup is `Order.objects.get(customer=current_user)` — with no
`payment_type=None` condition — and only `Order.DoesNotExist` is caught
(by creating a fresh order with the current timestamp);
`MultipleObjectsReturned` propagates. -/
def cartPost (db : DB) (now : Nat) (custId : Nat) (product_id : Option Nat) :
    CartPostResult × DB :=
  match djangoGet db.orders (fun o => o.customer == custId) with
  | .found open_order => cartPostAddItem db open_order product_id
  | .multipleReturned => (.uncaught "MultipleObjectsReturned", db)
  | .doesNotExist =>
    let open_order : Order :=
      { id := db.nextOrderId, customer := custId, created_date := now,
        payment_type := none }
    cartPostAddItem
      { db with orders := db.orders ++ [open_order],
                nextOrderId := db.nextOrderId + 1 }
      open_order product_id

/-- Response of `Profile.cart` GET (`views/profile.py`, lines 157–226):
200 with the serialized order, its line items and the computed `size`
field, 404 when the customer has no open order, or an uncaught
exception. -/
inductive CartGetResult where
  | ok : Order → List OrderProduct → Nat → CartGetResult
  | notFound : CartGetResult
  | uncaught : String → CartGetResult
  deriving Repr, DecidableEq

/-- `Profile.cart` GET (`views/profile.py`, lines 209–226): look up
`Order.objects.get(customer=current_user, payment_type=None)` (404 on
`DoesNotExist`, `MultipleObjectsReturned` uncaught), collect
`OrderProduct.objects.filter(order=open_order)`, and report
`size = len(line_items)`. -/
def cartGet (db : DB) (custId : Nat) : CartGetResult :=
  match djangoGet db.orders
      (fun o => o.customer == custId && o.payment_type == none) with
  | .doesNotExist => .notFound
  | .multipleReturned => .uncaught "MultipleObjectsReturned"
  | .found open_order =>
    let line_items := db.orderProducts.filter (fun li => li.order == open_order.id)
    .ok open_order line_items line_items.length

/-- Response of `Profile.cart` DELETE (`views/profile.py`, lines 130–155):
204, 404 when the customer has no open order, or an uncaught exception. -/
inductive CartDeleteResult where
  | noContent : CartDeleteResult
  | notFound : CartDeleteResult
  | uncaught : String → CartDeleteResult
  deriving Repr, DecidableEq

/-- `Profile.cart` DELETE (`views/profile.py`, lines 144–155): look up the
open order (`customer=current_user, payment_type=None`; 404 on
`DoesNotExist`, `MultipleObjectsReturned` uncaught), delete its line items,
then delete the order itself. -/
def cartDelete (db : DB) (custId : Nat) : CartDeleteResult × DB :=
  match djangoGet db.orders
      (fun o => o.customer == custId && o.payment_type == none) with
  | .doesNotExist => (.notFound, db)
  | .multipleReturned => (.uncaught "MultipleObjectsReturned", db)
  | .found open_order =>
    (.noContent,
      { db with
        orderProducts := db.orderProducts.filter (fun li => !(li.order == open_order.id))
        orders := db.orders.filter (fun o => !(o.id == open_order.id)) })

/-- Field-lookup roots usable in a Django queryset filter on the Order
model: its concrete fields (with `pk` as the alias for the primary key)
and the reverse relation `lineitems` used by `OrderSerializer`.  Modelled
from the spec (§3 lists the Order attributes; the Order model file is not
in the sources) together with the views' own lookups. -/
def orderFilterRoots : List (List Char) :=
  ["id".toList, "pk".toList, "customer".toList, "created_date".toList,
   "payment_type".toList, "lineitems".toList]

/-- A Django filter keyword such as `payment__id` resolves through its
root, the segment before the first `__`; a root that is not a field or
relation of the model raises `FieldError`. -/
def filterKeywordRoot : List Char → List Char
  | [] => []
  | '_' :: '_' :: _ => []
  | c :: rest => c :: filterKeywordRoot rest

/-- Response of `Orders.list` (`views/order.py`, lines 113–152): 200 with
the serialized orders, or an uncaught exception (the handler has no
try/except). -/
inductive OrdersListResult where
  | ok : List Order → OrdersListResult
  | uncaught : String → OrdersListResult
  deriving Repr, DecidableEq

/-- `Orders.list` (`views/order.py`, lines 143–152): take the customer's
orders, and when the `payment_id` query parameter is present apply
`orders.filter(payment__id=payment)`.  The keyword root `payment` is not
among the Order model's fields, so that filter raises `FieldError`, which
nothing in the handler catches. -/
def ordersList (db : DB) (custId : Nat) (payment_id : Option String) :
    OrdersListResult :=
  let orders := db.orders.filter (fun o => o.customer == custId)
  match payment_id with
  | none => .ok orders
  | some _ =>
    if orderFilterRoots.contains (filterKeywordRoot "payment__id".toList) then
      -- not reached: "payment" is not a field of Order
      .ok orders
    else
      .uncaught "FieldError"

/-- Response of `Orders.retrieve` (`views/order.py`, lines 43–84): 200 with
the serialized order, 404 on `Order.DoesNotExist`, and a 500 from the
catch-all `except Exception`. -/
inductive OrdersRetrieveResult where
  | ok : Order → OrdersRetrieveResult
  | notFound : OrdersRetrieveResult
  | serverError : OrdersRetrieveResult
  deriving Repr, DecidableEq

/-- `Orders.retrieve` (`views/order.py`, lines 69–84): look up
`Order.objects.get(pk=pk, customer=customer)`; `DoesNotExist` gives 404,
anything else that escapes is turned into a server error by the catch-all
branch. -/
def ordersRetrieve (db : DB) (custId : Nat) (pk : Nat) : OrdersRetrieveResult :=
  match djangoGet db.orders (fun o => o.id == pk && o.customer == custId) with
  | .found order => .ok order
  | .doesNotExist => .notFound
  | .multipleReturned => .serverError

/-- Response of `Orders.update` (`views/order.py`, lines 86–111): 204 with
no body, or an uncaught exception (the handler has no try/except, so a
failed lookup or a missing body key becomes an internal server error). -/
inductive OrdersUpdateResult where
  | noContent : OrdersUpdateResult
  | uncaught : String → OrdersUpdateResult
  deriving Repr, DecidableEq

/-- `Orders.update` (`views/order.py`, lines 106–111): look up
`Order.objects.get(pk=pk, customer=customer)` (ownership of the order is
part of the lookup), read `request.data["payment_type"]` (`KeyError` if
absent), look the payment up by primary key alone — no check that it
belongs to the caller — assign it to `order.payment_type` and save. -/
def ordersUpdate (db : DB) (custId : Nat) (pk : Nat)
    (payment_type : Option Nat) : OrdersUpdateResult × DB :=
  match djangoGet db.orders (fun o => o.id == pk && o.customer == custId) with
  | .doesNotExist => (.uncaught "Order.DoesNotExist", db)
  | .multipleReturned => (.uncaught "MultipleObjectsReturned", db)
  | .found order =>
    match payment_type with
    | none => (.uncaught "KeyError", db)
    | some payId =>
      match djangoGet db.payments (fun p => p.id == payId) with
      | .doesNotExist => (.uncaught "Payment.DoesNotExist", db)
      | .multipleReturned => (.uncaught "MultipleObjectsReturned", db)
      | .found payment =>
        (.noContent,
          { db with
            orders := db.orders.map (fun o =>
              if o.id == order.id then { o with payment_type := some payment.id }
              else o) })

/-- Response of `Products.remove_from_order` (`views/product.py`,
lines 459–488): 204, 404 when the line item does not exist, and a 500 from
the catch-all `except Exception`. -/
inductive RemoveFromOrderResult where
  | noContent : RemoveFromOrderResult
  | notFound : RemoveFromOrderResult
  | serverError : RemoveFromOrderResult
  deriving Repr, DecidableEq

/-- `Products.remove_from_order` (`views/product.py`, lines 459–488): look
up `OrderProduct.objects.get(pk=pk)` — by primary key only, with no check
that the parent order belongs to the caller (the handler never consults
the requesting customer) — and delete it; `OrderProduct.DoesNotExist`
gives 404, anything else the catch-all turns into a server error. -/
def remove_from_order (db : DB) (pk : Nat) : RemoveFromOrderResult × DB :=
  match djangoGet db.orderProducts (fun li => li.id == pk) with
  | .doesNotExist => (.notFound, db)
  | .multipleReturned => (.serverError, db)
  | .found order_product =>
    (.noContent,
      { db with
        orderProducts := db.orderProducts.filter
          (fun li => !(li.id == order_product.id)) })

/-- The serialized form of a payment produced by `PaymentSerializer`
(`views/paymenttype.py`, lines 14–40).  Its `fields` tuple names both the
stored `account_number` and the derived `obscured_num`; the URL and date
fields are omitted here as nothing about them is claimed. -/
structure SerializedPayment where
  id : Nat
  merchant_name : List Char
  account_number : List Char
  obscured_num : List Char
  deriving Repr, DecidableEq

/-- `PaymentSerializer.get_obscured_num` (`views/paymenttype.py`,
lines 38–40): Python `f"{'*' * (len(account_num) - 4)}{account_num[-4:]}"`.
`'*' * n` is empty for `n ≤ 0`, matching truncated subtraction on `Nat`,
and `account_num[-4:]` is the whole string when it is shorter than 4
characters, matching `drop (length - 4)`. -/
def get_obscured_num (account_num : List Char) : List Char :=
  List.replicate (account_num.length - 4) '*' ++
    account_num.drop (account_num.length - 4)

/-- `PaymentSerializer` (`views/paymenttype.py`, lines 14–40): serialize a
payment, emitting the stored account number in full alongside the masked
`obscured_num` method field. -/
def paymentSerialize (p : Payment) : SerializedPayment :=
  { id := p.id
    merchant_name := p.merchant_name
    account_number := p.account_number
    obscured_num := get_obscured_num p.account_number }

/-- The attribute names a saved Store instance carries: its primary key
and the fields declared in `bangazonapi/models/store.py` (`customer`,
`name`, `description`).  Reading any other attribute raises
`AttributeError` in Python. -/
def storeAttrNames : List String := ["id", "customer", "name", "description"]

/-- Response of `Profile.favoritesellers` POST (`views/profile.py`,
lines 359–416): 201 with the new favorite, 400 with a message, 404 when
the store does not exist, or an uncaught exception. -/
inductive FavoritesellersPostResult where
  | created : Favorite → FavoritesellersPostResult
  | badRequest : String → FavoritesellersPostResult
  | storeNotFound : FavoritesellersPostResult
  | uncaught : String → FavoritesellersPostResult
  deriving Repr, DecidableEq

/-- The body of `Profile.favoritesellers` POST from the `store.seller`
reads onward (`views/profile.py`, lines 389–411), with `seller` standing
for the customer the store's `seller` attribute would name: reject
favoriting one's own store (400), reject a duplicate
`Favorite.objects.filter(customer=…, seller=…).exists()` (400), otherwise
save `Favorite(customer=current_user, seller=store.seller)` (201). -/
def favoriteSellerChecks (db : DB) (custId : Nat) (seller : Nat) :
    FavoritesellersPostResult × DB :=
  if seller == custId then
    (.badRequest "You cannot favorite your own store.", db)
  else if !(db.favorites.filter
      (fun f => f.customer == custId && f.seller == seller)).isEmpty then
    (.badRequest "You have already favorited this store.", db)
  else
    let favorite : Favorite :=
      { id := db.nextFavoriteId, customer := custId, seller := seller }
    (.created favorite,
      { db with favorites := db.favorites ++ [favorite]
                nextFavoriteId := db.nextFavoriteId + 1 })

/-- `Profile.favoritesellers` POST (`views/profile.py`, lines 359–416):
`request.data.get("store_id")` is falsy when absent or zero (400), the
store is looked up by id (404 on `Store.DoesNotExist`), and then the
handler reads `store.seller` — an attribute the Store model does not
declare (its owner field is named `customer`), so the read raises
`AttributeError`, which the surrounding `try` (catching only
`Store.DoesNotExist`) does not handle. -/
def favoritesellersPost (db : DB) (custId : Nat) (store_id : Option Nat) :
    FavoritesellersPostResult × DB :=
  match store_id with
  | none => (.badRequest "Store ID is required in the request body", db)
  | some sid =>
    if sid == 0 then
      -- `if not store_id:` — 0 is falsy in Python
      (.badRequest "Store ID is required in the request body", db)
    else
      match djangoGet db.stores (fun s => s.id == sid) with
      | .doesNotExist => (.storeNotFound, db)
      | .multipleReturned => (.uncaught "MultipleObjectsReturned", db)
      | .found store =>
        if storeAttrNames.contains "seller" then
          -- not reached: the Store model has no `seller` attribute
          favoriteSellerChecks db custId store.customer
        else
          (.uncaught "AttributeError", db)

/-! ## Concrete sample states

Small concrete database states used to evaluate the handlers on explicit
inputs (the scenario of `tests/order.py` and close variants of it). -/

/-- A product, as in the test fixture (`tests/order.py`: name "Kite"). -/
def kite : Product := { id := 3, customer := 2, name := "Kite".toList }

/-- A stored payment method of customer 1 with a ten-character account
number, as in the test fixture (`tests/order.py`). -/
def visa : Payment :=
  { id := 7, customer := 1, merchant_name := "Visa".toList,
    account_number := "1234567890".toList }

/-- A stored payment method owned by customer 2 — not by customer 1. -/
def mastercard : Payment :=
  { id := 8, customer := 2, merchant_name := "Mastercard".toList,
    account_number := "9876543210".toList }

/-- An order of customer 1 that is closed: its payment reference points at
`visa`. -/
def closedOrder : Order :=
  { id := 10, customer := 1, created_date := 5, payment_type := some 7 }

/-- An open order of customer 1 (no payment reference). -/
def openOrder : Order :=
  { id := 11, customer := 1, created_date := 6, payment_type := none }

/-- A state in which customer 1's only order is the closed one. -/
def dbClosedOnly : DB :=
  { orders := [closedOrder], orderProducts := [], payments := [visa],
    products := [kite], stores := [], favorites := [],
    nextOrderId := 12, nextLineItemId := 1, nextFavoriteId := 1 }

/-- A state in which customer 1 has two orders: the closed one and an open
cart. -/
def dbTwoOrders : DB :=
  { dbClosedOnly with orders := [closedOrder, openOrder] }

/-- A state with no orders at all (fresh customer). -/
def dbNoOrders : DB :=
  { dbClosedOnly with orders := [] }

/-- A state in which customer 1 has an open order holding one line item for
the kite, and the closed order still holds another line item. -/
def dbOpenCart : DB :=
  { dbClosedOnly with
    orders := [closedOrder, openOrder]
    orderProducts := [{ id := 4, order := 11, product := 3 },
                      { id := 5, order := 10, product := 3 }]
    payments := [visa, mastercard]
    nextLineItemId := 6 }

/-- A state holding one store, owned (via the model's `customer` field) by
customer 1. -/
def dbStore : DB :=
  { dbClosedOnly with
    stores := [{ id := 1, customer := 1, name := "Tech Emporium".toList,
                 description := "Gadgets".toList }] }

/-! ## Helper lemmas -/

/-- `objects.get` raises `DoesNotExist` exactly when no row matches. -/
theorem djangoGet_of_filter_nil {α : Type} {table : List α} {p : α → Bool}
    (h : table.filter p = []) : djangoGet table p = .doesNotExist := by
  unfold djangoGet
  rw [h]

/-- `objects.get` returns the unique matching row. -/
theorem djangoGet_of_filter_singleton {α : Type} {table : List α}
    {p : α → Bool} {x : α} (h : table.filter p = [x]) :
    djangoGet table p = .found x := by
  unfold djangoGet
  rw [h]

/-- `objects.get` raises `MultipleObjectsReturned` when at least two rows
match. -/
theorem djangoGet_of_two_le {α : Type} {table : List α} {p : α → Bool}
    (h : 2 ≤ (table.filter p).length) : djangoGet table p = .multipleReturned := by
  unfold djangoGet
  rcases hf : table.filter p with _ | ⟨x, _ | ⟨y, rest⟩⟩
  · rw [hf] at h; simp at h
  · rw [hf] at h; simp at h
  · rfl

/-- Strengthening the lookup predicate preserves an empty result. -/
theorem filter_and_eq_nil {α : Type} {l : List α} {p : α → Bool}
    (q : α → Bool) (h : l.filter p = []) :
    l.filter (fun a => p a && q a) = [] := by
  rw [List.filter_eq_nil_iff] at h ⊢
  intro a ha
  simp [h a ha]

/-! ## Claims -/

/-- C1: the claim says the add-to-cart fetch-or-create step looks up an
order of the customer with no payment reference and, when the customer's
only order is closed, creates a fresh open order.  The code's lookup is
`Order.objects.get(customer=current_user)` with no payment condition:
evaluated at a state whose only order (id 10) is closed (payment
reference `visa`), add-to-cart succeeds and attaches the new line item to
that closed order, creating no new order — the orders table is left
unchanged. -/
theorem c1_addToCart_attaches_to_closed_order :
    cartPost dbClosedOnly 100 1 (some 3) =
      (.ok { id := 1, order := closedOrder.id, product := kite.id },
       { dbClosedOnly with
          orderProducts := [{ id := 1, order := 10, product := 3 }]
          nextLineItemId := 2 }) ∧
    closedOrder.payment_type = some visa.id ∧
    dbClosedOnly.orders = [closedOrder] := by
  decide

/-- C2: the claim says listing orders always answers 200, also when
`payment_id` is supplied.  Without the parameter the handler does answer
200 with the customer's orders, but with it the queryset filter keyword
`payment__id` has root `payment`, which is not a field or relation of the
Order model, so Django raises `FieldError` and the handler — which has no
try/except — turns into an internal server error. -/
theorem c2_ordersList_payment_filter_raises_fieldError :
    ordersList dbClosedOnly 1 (some "7") = .uncaught "FieldError" ∧
    ordersList dbClosedOnly 1 none = .ok [closedOrder] := by
  decide

/-- C3 counterexample: the claim says every serialized display of a
payment's account number is masked and no response body ever contains the
full account number.  Serializing the sample payment yields a body whose
`account_number` field is the full ten-character account number,
unmasked. -/
theorem c3_serialized_payment_contains_full_account_number :
    (paymentSerialize visa).account_number = "1234567890".toList ∧
    (paymentSerialize visa).account_number = visa.account_number ∧
    (paymentSerialize visa).account_number ≠ (paymentSerialize visa).obscured_num := by
  decide

/-- C3 as amended: the account number is persisted in full, and every
serialized payment carries a derived `obscured_num` field in which all but
the last 4 characters are replaced by `'*'` — but the serialized body also
carries the `account_number` field verbatim, so response bodies do contain
the full account number. -/
theorem c3_amended_mask_field_and_full_account (p : Payment) :
    (paymentSerialize p).account_number = p.account_number ∧
    (paymentSerialize p).obscured_num.length = p.account_number.length ∧
    (∀ c ∈ (paymentSerialize p).obscured_num.take (p.account_number.length - 4),
      c = '*') ∧
    (paymentSerialize p).obscured_num.drop (p.account_number.length - 4) =
      p.account_number.drop (p.account_number.length - 4) := by
  refine ⟨rfl, ?_, ?_, ?_⟩
  · simp only [paymentSerialize, get_obscured_num, List.length_append,
      List.length_replicate, List.length_drop]
    omega
  · intro c hc
    simp only [paymentSerialize, get_obscured_num] at hc
    rw [List.take_left' (by simp)] at hc
    exact List.eq_of_mem_replicate hc
  · simp only [paymentSerialize, get_obscured_num]
    have h := List.drop_left (List.replicate (p.account_number.length - 4) '*')
      (p.account_number.drop (p.account_number.length - 4))
    simp only [List.length_replicate] at h
    exact h

/-- C4 counterexample: the claim says that for every customer, adding an
existing product and immediately fetching the cart returns the open order
containing it.  For customer 1, whose only order is closed, the add
succeeds (attaching the item to the closed order) and the immediate cart
fetch answers NOT_FOUND instead of an order containing the product. -/
theorem c4_add_then_fetch_misses_for_closed_order_customer :
    (cartPost dbClosedOnly 100 1 (some 3)).1 =
      .ok { id := 1, order := 10, product := 3 } ∧
    cartGet (cartPost dbClosedOnly 100 1 (some 3)).2 1 = .notFound := by
  decide

/-- C8: the claim says self-favoriting and duplicate favoriting are
rejected with 400-class errors.  The Store model's owner field is named
`customer`, not `seller`, so the handler's read of `store.seller` raises
`AttributeError` — uncaught, hence an internal server error — for every
existing store: here both for the store's own seller (customer 1) and for
another customer, with no favorite ever created. -/
theorem c8_favoritesellers_raises_attributeError :
    favoritesellersPost dbStore 1 (some 1) = (.uncaught "AttributeError", dbStore) ∧
    favoritesellersPost dbStore 2 (some 1) = (.uncaught "AttributeError", dbStore) ∧
    dbStore.stores.map Store.customer = [1] ∧
    dbStore.favorites = [] := by
  decide

/-- Auxiliary: `cartPostAddItem` with no `product_id` answers 400 and
leaves the state as it received it. -/
theorem cartPostAddItem_no_product_id (db : DB) (o : Order) :
    cartPostAddItem db o none = (.badRequest, db) := rfl

/-- Auxiliary: `cartPostAddItem` with an unknown product answers 404 and
leaves the state as it received it. -/
theorem cartPostAddItem_unknown_product (db : DB) (o : Order) (pid : Nat)
    (h : db.products.filter (fun p => p.id == pid) = []) :
    cartPostAddItem db o (some pid) = (.productNotFound, db) := by
  unfold cartPostAddItem
  dsimp only
  rw [djangoGet_of_filter_nil h]

/-- C9: for a customer with no existing order, the add-to-cart error paths
are not atomic — a request with a missing `product_id` (400) and a request
naming a nonexistent product (404) both first create and persist a fresh
open order, which the error response then leaves behind. -/
theorem c9_error_paths_leave_new_order (db : DB) (now custId pid : Nat)
    (hno : db.orders.filter (fun o => o.customer == custId) = [])
    (hprod : db.products.filter (fun p => p.id == pid) = []) :
    cartPost db now custId none =
      (.badRequest,
       { db with
          orders := db.orders ++
            [{ id := db.nextOrderId, customer := custId, created_date := now,
               payment_type := none }]
          nextOrderId := db.nextOrderId + 1 }) ∧
    cartPost db now custId (some pid) =
      (.productNotFound,
       { db with
          orders := db.orders ++
            [{ id := db.nextOrderId, customer := custId, created_date := now,
               payment_type := none }]
          nextOrderId := db.nextOrderId + 1 }) := by
  unfold cartPost
  rw [djangoGet_of_filter_nil hno]
  exact ⟨cartPostAddItem_no_product_id .. ,
         cartPostAddItem_unknown_product _ _ _ hprod⟩

/-- C9 witness: a fresh customer (state `dbNoOrders`) posting a missing or
unknown product id gets the error yet leaves order 12 behind. -/
theorem c9_error_paths_leave_new_order_witness :
    cartPost dbNoOrders 100 1 none =
      (.badRequest,
       { dbNoOrders with
          orders := [{ id := 12, customer := 1, created_date := 100,
                       payment_type := none }]
          nextOrderId := 13 }) ∧
    cartPost dbNoOrders 100 1 (some 99) =
      (.productNotFound,
       { dbNoOrders with
          orders := [{ id := 12, customer := 1, created_date := 100,
                       payment_type := none }]
          nextOrderId := 13 }) := by
  have h := c9_error_paths_leave_new_order dbNoOrders 100 1 99
    (by decide) (by decide)
  exact h

/-- C10: for a customer owning two or more orders — for example one closed
order and one open cart — the add-to-cart order lookup matches several
rows, so `Order.objects.get` raises `MultipleObjectsReturned`, which the
handler does not catch: the request ends in an internal server error and
no line item is added (the state is unchanged). -/
theorem c10_two_orders_multipleObjectsReturned (db : DB) (now custId : Nat)
    (product_id : Option Nat)
    (h : 2 ≤ (db.orders.filter (fun o => o.customer == custId)).length) :
    cartPost db now custId product_id = (.uncaught "MultipleObjectsReturned", db) := by
  unfold cartPost
  rw [djangoGet_of_two_le h]

/-- C10 witness: customer 1, holding the closed order and an open cart,
posts the existing kite and gets the uncaught exception with no state
change. -/
theorem c10_two_orders_multipleObjectsReturned_witness :
    cartPost dbTwoOrders 100 1 (some 3) =
      (.uncaught "MultipleObjectsReturned", dbTwoOrders) :=
  c10_two_orders_multipleObjectsReturned dbTwoOrders 100 1 (some 3) (by decide)

/-- C4 as amended: for a customer with no pre-existing orders, adding an
existing product and then immediately fetching the cart returns the newly
created open order whose line items are exactly the one entry referencing
that product, with the `size` field equal to the line-item count 1 (not a
summed quantity); and fetching the cart while no open order exists
returns NOT_FOUND.  The freshness hypothesis says no stale line item
already points at the primary key the new order receives. -/
theorem c4_amended_fresh_customer_add_then_fetch (db : DB)
    (now custId pid : Nat) (prod : Product)
    (hno : db.orders.filter (fun o => o.customer == custId) = [])
    (hprod : db.products.filter (fun q => q.id == pid) = [prod])
    (hfresh : db.orderProducts.filter (fun li => li.order == db.nextOrderId) = []) :
    cartGet db custId = .notFound ∧
    (cartPost db now custId (some pid)).1 =
      .ok { id := db.nextLineItemId, order := db.nextOrderId, product := prod.id } ∧
    cartGet (cartPost db now custId (some pid)).2 custId =
      .ok { id := db.nextOrderId, customer := custId, created_date := now,
            payment_type := none }
        [{ id := db.nextLineItemId, order := db.nextOrderId, product := prod.id }]
        1 := by
  have hopen : db.orders.filter
      (fun o => o.customer == custId && o.payment_type == none) = [] := by
    rw [List.filter_eq_nil_iff] at hno ⊢
    intro a ha
    simp [hno a ha]
  have hpost : cartPost db now custId (some pid) =
      (.ok { id := db.nextLineItemId, order := db.nextOrderId, product := prod.id },
       { db with
          orders := db.orders ++
            [{ id := db.nextOrderId, customer := custId, created_date := now,
               payment_type := none }]
          orderProducts := db.orderProducts ++
            [{ id := db.nextLineItemId, order := db.nextOrderId, product := prod.id }]
          nextOrderId := db.nextOrderId + 1
          nextLineItemId := db.nextLineItemId + 1 }) := by
    unfold cartPost
    rw [djangoGet_of_filter_nil hno]
    unfold cartPostAddItem
    dsimp only
    rw [djangoGet_of_filter_singleton hprod]
  refine ⟨?_, ?_, ?_⟩
  · unfold cartGet
    rw [djangoGet_of_filter_nil hopen]
  · rw [hpost]
  · rw [hpost]
    unfold cartGet
    dsimp only
    rw [djangoGet_of_filter_singleton (x :=
      { id := db.nextOrderId, customer := custId, created_date := now,
        payment_type := none })
      (by rw [List.filter_append, hopen]; simp)]
    dsimp only
    rw [List.filter_append, hfresh]
    simp

/-- C4 witness: the fresh customer 1 in `dbNoOrders` sees NOT_FOUND before
adding, adds kite (product 3) as line item 1 of new order 12, and the
immediate fetch shows that single line item with size 1. -/
theorem c4_amended_fresh_customer_add_then_fetch_witness :
    cartGet dbNoOrders 1 = .notFound ∧
    (cartPost dbNoOrders 100 1 (some 3)).1 =
      .ok { id := 1, order := 12, product := 3 } ∧
    cartGet (cartPost dbNoOrders 100 1 (some 3)).2 1 =
      .ok { id := 12, customer := 1, created_date := 100, payment_type := none }
        [{ id := 1, order := 12, product := 3 }] 1 := by
  have h := c4_amended_fresh_customer_add_then_fetch dbNoOrders 100 1 3 kite
    (by decide) (by decide) (by decide)
  exact h

/-- C5: clearing the cart of a customer whose open order is `o` (the
unique order with no payment reference) answers 204, deletes all of `o`'s
line items and then `o` itself — so a subsequent cart fetch answers
NOT_FOUND — and clearing while no open order exists answers NOT_FOUND
with no state change. -/
theorem c5_clear_cart_deletes_items_and_order (db : DB) (custId : Nat)
    (o : Order)
    (hopen : db.orders.filter
      (fun x => x.customer == custId && x.payment_type == none) = [o]) :
    cartDelete db custId =
      (.noContent,
       { db with
          orderProducts := db.orderProducts.filter (fun li => !(li.order == o.id))
          orders := db.orders.filter (fun x => !(x.id == o.id)) }) ∧
    cartGet (cartDelete db custId).2 custId = .notFound ∧
    (∀ db2 : DB,
      db2.orders.filter
        (fun x => x.customer == custId && x.payment_type == none) = [] →
      cartDelete db2 custId = (.notFound, db2)) := by
  have hdel : cartDelete db custId =
      (.noContent,
       { db with
          orderProducts := db.orderProducts.filter (fun li => !(li.order == o.id))
          orders := db.orders.filter (fun x => !(x.id == o.id)) }) := by
    unfold cartDelete
    rw [djangoGet_of_filter_singleton hopen]
  have hafter : (db.orders.filter (fun x => !(x.id == o.id))).filter
      (fun x => x.customer == custId && x.payment_type == none) = [] := by
    rw [List.filter_filter, List.filter_eq_nil_iff]
    intro a ha
    by_cases hp : (a.customer == custId && a.payment_type == none) = true
    · have hmem : a ∈ db.orders.filter
          (fun x => x.customer == custId && x.payment_type == none) :=
        List.mem_filter.mpr ⟨ha, hp⟩
      rw [hopen] at hmem
      simp only [List.mem_singleton] at hmem
      subst hmem
      simp
    · simp [hp]
  refine ⟨hdel, ?_, ?_⟩
  · rw [hdel]
    unfold cartGet
    dsimp only
    rw [djangoGet_of_filter_nil hafter]
  · intro db2 h2
    unfold cartDelete
    rw [djangoGet_of_filter_nil h2]

/-- C5 witness: in `dbOpenCart` customer 1's open order 11 holds line item
4; clearing answers 204, removes line item 4 and order 11 (line item 5 of
the closed order 10 survives), the follow-up fetch answers NOT_FOUND, and
clearing the orderless state `dbNoOrders` answers NOT_FOUND unchanged. -/
theorem c5_clear_cart_deletes_items_and_order_witness :
    cartDelete dbOpenCart 1 =
      (.noContent,
       { dbOpenCart with
          orderProducts := [{ id := 5, order := 10, product := 3 }]
          orders := [closedOrder] }) ∧
    cartGet (cartDelete dbOpenCart 1).2 1 = .notFound ∧
    cartDelete dbNoOrders 1 = (.notFound, dbNoOrders) := by
  have h := c5_clear_cart_deletes_items_and_order dbOpenCart 1 openOrder (by decide)
  refine ⟨?_, h.2.1, h.2.2 dbNoOrders (by decide)⟩
  · rw [h.1]
    decide

/-- C7: removing a line item deletes it on the strength of its identifier
alone — the handler never consults the requesting customer or the orders
table, so a line item of another customer's order is deleted just the
same (third conjunct: the response and the line-item table after the call
are the same for every possible orders table) — and it answers NOT_FOUND
exactly when no line item with that identifier exists. -/
theorem c7_remove_line_item_unowned (db : DB) (pk : Nat) :
    ((remove_from_order db pk).1 = .notFound ↔
      ∀ li ∈ db.orderProducts, li.id ≠ pk) ∧
    (∀ li, db.orderProducts.filter (fun x => x.id == pk) = [li] →
      remove_from_order db pk =
        (.noContent,
         { db with
            orderProducts := db.orderProducts.filter (fun x => !(x.id == li.id)) })) ∧
    (∀ orders2 : List Order,
      remove_from_order { db with orders := orders2 } pk =
        ((remove_from_order db pk).1,
         { (remove_from_order db pk).2 with orders := orders2 })) := by
  rcases hf : db.orderProducts.filter (fun x => x.id == pk) with _ | ⟨x, _ | ⟨y, r⟩⟩
  · have hres : remove_from_order db pk = (.notFound, db) := by
      unfold remove_from_order
      rw [djangoGet_of_filter_nil hf]
    refine ⟨?_, ?_, ?_⟩
    · rw [hres]
      refine ⟨fun _ li hli => ?_, fun _ => rfl⟩
      have := List.filter_eq_nil_iff.mp hf li hli
      simpa using this
    · intro li hli
      rw [hf] at hli
      simp at hli
    · intro orders2
      unfold remove_from_order
      dsimp only
      rw [djangoGet_of_filter_nil hf]
  · have hres : remove_from_order db pk =
        (.noContent,
         { db with
            orderProducts := db.orderProducts.filter (fun li => !(li.id == x.id)) }) := by
      unfold remove_from_order
      rw [djangoGet_of_filter_singleton hf]
    have hxmem : x ∈ db.orderProducts ∧ (x.id == pk) = true :=
      List.mem_filter.mp (by rw [hf]; exact List.mem_singleton_self x)
    refine ⟨?_, ?_, ?_⟩
    · rw [hres]
      refine ⟨fun h => absurd h (by simp), fun hall => ?_⟩
      exact absurd (by simpa using hxmem.2) (hall x hxmem.1)
    · intro li hli
      rw [hf] at hli
      simp only [List.cons.injEq, and_true] at hli
      subst hli
      exact hres
    · intro orders2
      unfold remove_from_order
      dsimp only
      rw [djangoGet_of_filter_singleton hf]
  · have hlen : 2 ≤ (db.orderProducts.filter (fun li => li.id == pk)).length := by
      rw [hf]
      simp
    have hxmem : x ∈ db.orderProducts ∧ (x.id == pk) = true :=
      List.mem_filter.mp (by rw [hf]; simp)
    have hres : remove_from_order db pk = (.serverError, db) := by
      unfold remove_from_order
      rw [djangoGet_of_two_le hlen]
    refine ⟨?_, ?_, ?_⟩
    · rw [hres]
      refine ⟨fun h => absurd h (by simp), fun hall => ?_⟩
      exact absurd (by simpa using hxmem.2) (hall x hxmem.1)
    · intro li hli
      rw [hf] at hli
      simp at hli
    · intro orders2
      unfold remove_from_order
      dsimp only
      rw [djangoGet_of_two_le hlen]

/-- C7 witness: in `dbOpenCart`, removing line item 4 (which belongs to
customer 1's open order) answers 204 and deletes exactly it, and removing
the nonexistent id 99 answers NOT_FOUND. -/
theorem c7_remove_line_item_unowned_witness :
    remove_from_order dbOpenCart 4 =
      (.noContent,
       { dbOpenCart with
          orderProducts := [{ id := 5, order := 10, product := 3 }] }) ∧
    (remove_from_order dbOpenCart 99).1 = .notFound := by
  constructor
  · have h := (c7_remove_line_item_unowned dbOpenCart 4).2.1
      { id := 4, order := 11, product := 3 } (by decide)
    rw [h]
    decide
  · exact (c7_remove_line_item_unowned dbOpenCart 99).1.mpr (by decide)

/-- Auxiliary: assigning a payment reference to the order with primary key
`oid` commutes with an id/customer lookup, because the assignment changes
neither field. -/
theorem filter_orders_update (l : List Order) (pk custId oid pay : Nat) :
    (l.map (fun x => if x.id == oid then { x with payment_type := some pay }
        else x)).filter (fun x => x.id == pk && x.customer == custId) =
      (l.filter (fun x => x.id == pk && x.customer == custId)).map
        (fun x => if x.id == oid then { x with payment_type := some pay }
          else x) := by
  rw [List.filter_map]
  congr 1
  apply List.filter_congr
  intro x _
  by_cases h : (x.id == oid) = true
  · simp [Function.comp, h]
  · simp [Function.comp, h]

/-- C6: attaching a payment to an order sets the order's payment reference
so that a subsequent fetch of the order reports that payment's id, and a
second attach overwrites the first (last write wins).  The order must
belong to the caller (last conjunct: with no order matching both the id
and the caller, the lookup raises), while `p1` and `p2` are arbitrary
payments, owned by anyone — the handler looks payments up by primary key
alone, with no ownership check. -/
theorem c6_attach_payment_last_write_wins (db : DB) (custId pk : Nat)
    (o : Order) (p1 p2 : Payment)
    (ho : db.orders.filter (fun x => x.id == pk && x.customer == custId) = [o])
    (hp1 : db.payments.filter (fun x => x.id == p1.id) = [p1])
    (hp2 : db.payments.filter (fun x => x.id == p2.id) = [p2]) :
    (ordersUpdate db custId pk (some p1.id)).1 = .noContent ∧
    ordersRetrieve (ordersUpdate db custId pk (some p1.id)).2 custId pk =
      .ok { o with payment_type := some p1.id } ∧
    (ordersUpdate (ordersUpdate db custId pk (some p1.id)).2 custId pk
        (some p2.id)).1 = .noContent ∧
    ordersRetrieve (ordersUpdate (ordersUpdate db custId pk (some p1.id)).2
        custId pk (some p2.id)).2 custId pk =
      .ok { o with payment_type := some p2.id } ∧
    (∀ db2 : DB,
      db2.orders.filter (fun x => x.id == pk && x.customer == custId) = [] →
      ∀ pt, ordersUpdate db2 custId pk pt =
        (.uncaught "Order.DoesNotExist", db2)) := by
  have hup1 : ordersUpdate db custId pk (some p1.id) =
      (.noContent,
       { db with orders := db.orders.map (fun x =>
          if x.id == o.id then { x with payment_type := some p1.id }
          else x) }) := by
    unfold ordersUpdate
    rw [djangoGet_of_filter_singleton ho]
    dsimp only
    rw [djangoGet_of_filter_singleton hp1]
  have hfilter1 : (db.orders.map (fun x =>
      if x.id == o.id then { x with payment_type := some p1.id }
      else x)).filter (fun x => x.id == pk && x.customer == custId) =
      [{ o with payment_type := some p1.id }] := by
    rw [filter_orders_update, ho]
    simp
  have hup2 : ordersUpdate
      { db with orders := db.orders.map (fun x =>
          if x.id == o.id then { x with payment_type := some p1.id }
          else x) } custId pk (some p2.id) =
      (.noContent,
       { db with orders := ((db.orders.map (fun x =>
          if x.id == o.id then { x with payment_type := some p1.id }
          else x)).map (fun x =>
          if x.id == o.id then { x with payment_type := some p2.id }
          else x)) }) := by
    unfold ordersUpdate
    dsimp only
    rw [djangoGet_of_filter_singleton hfilter1]
    dsimp only
    rw [djangoGet_of_filter_singleton hp2]
  have hfilter2 : ((db.orders.map (fun x =>
      if x.id == o.id then { x with payment_type := some p1.id }
      else x)).map (fun x =>
      if x.id == o.id then { x with payment_type := some p2.id }
      else x)).filter (fun x => x.id == pk && x.customer == custId) =
      [{ o with payment_type := some p2.id }] := by
    rw [filter_orders_update, hfilter1]
    simp
  refine ⟨by rw [hup1], ?_, ?_, ?_, ?_⟩
  · rw [hup1]
    unfold ordersRetrieve
    dsimp only
    rw [djangoGet_of_filter_singleton hfilter1]
  · rw [hup1]
    dsimp only
    rw [hup2]
  · rw [hup1]
    dsimp only
    rw [hup2]
    unfold ordersRetrieve
    dsimp only
    rw [djangoGet_of_filter_singleton hfilter2]
  · intro db2 h2 pt
    unfold ordersUpdate
    rw [djangoGet_of_filter_nil h2]

/-- C6 witness: customer 1 attaches `mastercard` (id 8, owned by customer
2 — no ownership check) to their open order 11, a fetch reports payment 8,
re-attaching `visa` (id 7) overwrites it, and the fetch then reports
payment 7. -/
theorem c6_attach_payment_last_write_wins_witness :
    (ordersUpdate dbOpenCart 1 11 (some 8)).1 = .noContent ∧
    ordersRetrieve (ordersUpdate dbOpenCart 1 11 (some 8)).2 1 11 =
      .ok { openOrder with payment_type := some 8 } ∧
    (ordersUpdate (ordersUpdate dbOpenCart 1 11 (some 8)).2 1 11
        (some 7)).1 = .noContent ∧
    ordersRetrieve (ordersUpdate (ordersUpdate dbOpenCart 1 11 (some 8)).2
        1 11 (some 7)).2 1 11 =
      .ok { openOrder with payment_type := some 7 } ∧
    mastercard.customer ≠ 1 := by
  have h := c6_attach_payment_last_write_wins dbOpenCart 1 11 openOrder
    mastercard visa (by decide) (by decide) (by decide)
  exact ⟨h.1, h.2.1, h.2.2.1, h.2.2.2.1, by decide⟩

end Bangazon
